import Mathlib

/-!
Shallow embedding of the OVS VXLAN vport (`datapath/vport-vxlan.c`) and
proofs about its send/receive/create paths.

Network-order (`__be16` / `__be32` / `__be64`) quantities are embedded as
big-endian byte lists (`List Nat`, each byte `< 256`), so the host/network
conversions `htons`/`ntohs`/`htonl`/`ntohl`/`cpu_to_be64`/`be64_to_cpu`
are explicit pack/unpack functions.  C shifts `<<`/`>>` on unsigned
integers are embedded as `* 2 ^ k` / `/ 2 ^ k`, with wrap-around written
as an explicit `% 2 ^ w` where the C type forces truncation.
-/

/-! Section: Byte-order conversions -/

/-- The C-side `htons`: pack a host 16-bit value into 2 big-endian bytes (truncating mod 2^16,
as the C cast to `u16` does). -/
def htons (n : Nat) : List Nat :=
  [n / 2 ^ 8 % 256, n % 256]

/-- The C-side `ntohs`: read 2 big-endian bytes as a host 16-bit value. -/
def ntohs : List Nat → Nat
  | [a, b] => a * 2 ^ 8 + b
  | _ => 0

/-- The C-side `htonl`: pack a host 32-bit value into 4 big-endian bytes (truncating mod 2^32). -/
def htonl (n : Nat) : List Nat :=
  [n / 2 ^ 24 % 256, n / 2 ^ 16 % 256, n / 2 ^ 8 % 256, n % 256]

/-- The C-side `ntohl`: read 4 big-endian bytes as a host 32-bit value. -/
def ntohl : List Nat → Nat
  | [a, b, c, d] => ((a * 256 + b) * 256 + c) * 256 + d
  | _ => 0

/-- The C-side `cpu_to_be64`: pack a host 64-bit value into 8 big-endian bytes. -/
def cpu_to_be64 (n : Nat) : List Nat :=
  [n / 2 ^ 56 % 256, n / 2 ^ 48 % 256, n / 2 ^ 40 % 256, n / 2 ^ 32 % 256,
   n / 2 ^ 24 % 256, n / 2 ^ 16 % 256, n / 2 ^ 8 % 256, n % 256]

/-- The C-side `be64_to_cpu`: read 8 big-endian bytes as a host 64-bit value. -/
def be64_to_cpu : List Nat → Nat
  | [a, b, c, d, e, f, g, h] =>
    ((((((a * 256 + b) * 256 + c) * 256 + d) * 256 + e) * 256 + f) * 256 + g) * 256 + h
  | _ => 0

theorem ntohs_htons (n : Nat) : ntohs (htons n) = n % 2 ^ 16 := by
  simp only [htons, ntohs]
  omega

theorem ntohl_htonl (n : Nat) : ntohl (htonl n) = n % 2 ^ 32 := by
  simp only [htonl, ntohl]
  omega

theorem be64_to_cpu_cpu_to_be64 (n : Nat) : be64_to_cpu (cpu_to_be64 n) = n % 2 ^ 64 := by
  simp only [cpu_to_be64, be64_to_cpu]
  omega

/-! Section: Constants (values from the kernel headers included by the source) -/

def IFNAMSIZ : Nat := 16

def EINVAL : Int := 22

/-- The C-side `TUNNEL_KEY` tunnel-flag bit ("key/instance present"), from `net/ip_tunnels.h`. -/
def TUNNEL_KEY : Nat := 0x04

/-- The C-side `TUNNEL_DONT_FRAGMENT` tunnel-flag bit, from `net/ip_tunnels.h`. -/
def TUNNEL_DONT_FRAGMENT : Nat := 0x0100

/-- The C-side `IP_DF`: the IP header "don't fragment" flag value, from `net/ip.h`. -/
def IP_DF : Nat := 0x4000

/-- The C-side `OVS_TUNNEL_ATTR_DST_PORT` netlink attribute type (first member after
`OVS_TUNNEL_ATTR_UNSPEC` in the openvswitch uapi enum). -/
def OVS_TUNNEL_ATTR_DST_PORT : Nat := 1

/-! Section: Data model -/

/-- Outer IPv4 header fields read by the receive path (`struct iphdr`).
Addresses are `__be32` byte lists; `tos`/`ttl` are single bytes. -/
structure Iphdr where
  saddr : List Nat
  daddr : List Nat
  tos : Nat
  ttl : Nat
deriving DecidableEq, Repr

/-- The C-side `struct ovs_key_ipv4_tunnel`: the per-packet tunnel key.  `tun_id` is a
`__be64` (8 big-endian bytes), the addresses `__be32` (4 bytes each),
`tun_flags` a host-level bitset of `TUNNEL_*` bits. -/
structure OvsKeyIpv4Tunnel where
  tun_id : List Nat
  ipv4_src : List Nat
  ipv4_dst : List Nat
  ipv4_tos : Nat
  ipv4_ttl : Nat
  tun_flags : Nat
deriving DecidableEq, Repr

/-- The C-side `struct vxlan_sock`, reduced to what the source reads from it: the UDP
source port stored on the underlying inet socket (network order), which
`inet_sport` returns. -/
structure VxlanSock where
  sport : List Nat
deriving DecidableEq, Repr

/-- The C-side `inet_sport(vs->sock->sk)`: the network-order port the socket is bound to. -/
def inet_sport (vs : VxlanSock) : List Nat := vs.sport

/-- The C-side `struct vxlan_port`: vport private data – the shared vxlan socket and the
vport name (a `char[IFNAMSIZ]` buffer filled by `strncpy`). -/
structure VxlanPort where
  vs : VxlanSock
  name : List Char
deriving DecidableEq, Repr

/-! Section: Receive path (`vxlan_rcv`) -/

/-- Modelled from the spec: `ovs_flow_tun_key_init` (declared in the
openvswitch module's `flow.h`, not part of the sources here) builds the
per-packet `TunnelKey`: outer source/destination address and type-of-service
(and ttl) come from the outer IP header, together with the given tunnel id
and tunnel flags. -/
def ovs_flow_tun_key_init (iph : Iphdr) (tun_id : List Nat) (tun_flags : Nat) :
    OvsKeyIpv4Tunnel :=
  { tun_id := tun_id
    ipv4_src := iph.saddr
    ipv4_dst := iph.daddr
    ipv4_tos := iph.tos
    ipv4_ttl := iph.ttl
    tun_flags := tun_flags }

/-- The C-side `vxlan_rcv`: per inbound underlay packet, recover the tunnel id from the
network-order 32-bit VNI field (`cpu_to_be64(ntohl(vx_vni) >> 8)`), build the
tunnel key from the outer IP header with `TUNNEL_KEY` set, and hand
`(vport, inner payload, tun_key)` to `ovs_vport_receive` – embedded here as
returning the delivered triple. -/
def vxlan_rcv (vport : VxlanPort) (iph : Iphdr) (payload : List Nat)
    (vx_vni : List Nat) : VxlanPort × List Nat × OvsKeyIpv4Tunnel :=
  let key := cpu_to_be64 (ntohl vx_vni / 2 ^ 8)
  let tun_key := ovs_flow_tun_key_init iph key TUNNEL_KEY
  (vport, payload, tun_key)

/-! Section: Creation path (`vxlan_tnl_create`) -/

/-- A netlink attribute as the source consumes it: its type, the payload
length `nla_len` (in bytes), and the payload value. -/
structure Nlattr where
  typ : Nat
  len : Nat
  value : Nat
deriving DecidableEq, Repr

/-- The C-side `nla_find_nested(options, attrtype)`: first attribute of the given type. -/
def nla_find_nested (options : List Nlattr) (attrtype : Nat) : Option Nlattr :=
  options.find? (fun a => a.typ == attrtype)

/-- The C-side `nla_get_u16`: the payload read as an unsigned 16-bit value. -/
def nla_get_u16 (a : Nlattr) : Nat := a.value % 2 ^ 16

/-- The C-side `struct vport_parms`, reduced to the fields the source reads: the
requested vport name and the nested options (absent when userspace sent
none). -/
structure VportParms where
  name : List Char
  options : Option (List Nlattr)
deriving DecidableEq, Repr

/-- Resource events of the creation path, in program order: successful
vport-object allocation, vport-object free, and the socket-open attempt
(with the network-order port it binds). -/
inductive CreateEvent where
  | vportAlloc
  | vportFree
  | sockAdd (port : List Nat)
deriving DecidableEq, Repr

/-- Modelled from the spec: `vxlan_sock_add` (the shared-socket registry's
acquire, outside these sources) opens/acquires the underlay UDP socket bound
to the given network-order port and registers the receive callback; on
success the socket's `inet_sport` is that port, on failure it returns the
error and leaves no socket.  The failure outcome is supplied as a
parameter. -/
def vxlan_sock_add (port : List Nat) (fail : Option Int) : Except Int VxlanSock :=
  match fail with
  | some e => .error e
  | none => .ok ⟨port⟩

/-- The C-side `vxlan_tnl_create`: validate the options (a `dst_port` attribute of
exactly `u16` width is required, else `-EINVAL` before anything is
allocated), then allocate the vport object, copy the name
(`strncpy(..., IFNAMSIZ)` keeps at most `IFNAMSIZ` characters), then open
the shared socket on `htons(dst_port)`; if the socket open fails the vport
object is freed and the socket error returned.  Outcomes of the two
external fallible calls (`ovs_vport_alloc`, `vxlan_sock_add`) are
parameters; the result carries the event trace. -/
def vxlan_tnl_create (parms : VportParms) (allocFail : Option Int)
    (sockFail : Option Int) : Except Int VxlanPort × List CreateEvent :=
  match parms.options with
  | none => (.error (-EINVAL), [])
  | some options =>
    match nla_find_nested options OVS_TUNNEL_ATTR_DST_PORT with
    | none => (.error (-EINVAL), [])
    | some a =>
      if a.len = 2 then
        let dst_port := nla_get_u16 a
        match allocFail with
        | some e => (.error e, [])
        | none =>
          let stored_name := parms.name.take IFNAMSIZ
          match vxlan_sock_add (htons dst_port) sockFail with
          | .error e =>
            (.error e, [.vportAlloc, .sockAdd (htons dst_port), .vportFree])
          | .ok vs =>
            (.ok ⟨vs, stored_name⟩, [.vportAlloc, .sockAdd (htons dst_port)])
      else (.error (-EINVAL), [])

/-- Every vport-object allocation in the trace is matched by a free. -/
def allocBalanced (t : List CreateEvent) : Prop :=
  t.count CreateEvent.vportAlloc = t.count CreateEvent.vportFree

/-! Section: Accessors (`vxlan_get_options`, `vxlan_get_name`) -/

/-- The C-side `vxlan_get_options`: emits `ntohs(inet_sport(vs->sock->sk))` as the
`dst_port` attribute value. -/
def vxlan_get_options (vport : VxlanPort) : Nat :=
  ntohs (inet_sport vport.vs)

/-- The C-side `vxlan_get_name`: the stored name buffer. -/
def vxlan_get_name (vport : VxlanPort) : List Char :=
  vport.name

/-! Section: Send path (`vxlan_tnl_send`) -/

/-- External interactions of the send path, in program order. -/
inductive SendEvent where
  | findRoute
  | xmit
  | routePut
deriving DecidableEq, Repr

/-- The arguments `vxlan_tnl_send` hands to `vxlan_xmit_skb`, i.e. the outer
headers of the encapsulated packet: outer IP source/destination/tos/ttl,
the `__be16` DF field, the `__be16` UDP source and destination ports, and
the `__be32` VXLAN VNI field. -/
structure XmitArgs where
  saddr : List Nat
  daddr : List Nat
  tos : Nat
  ttl : Nat
  df : List Nat
  src_port : List Nat
  dst_port : List Nat
  vni : List Nat
deriving DecidableEq, Repr

/-- Modelled from the spec: `vxlan_src_port` (outside these sources) selects
the underlay UDP source port deterministically from a 32-bit hash of the
inner packet's flow identifiers, scaled into the configured ephemeral range
`[port_min, port_max]` (the kernel's `(hash * range) >> 32 + port_min`
scaling), returned in network order. -/
def vxlan_src_port (port_min port_max : Nat) (flow_hash : Nat) : List Nat :=
  let range := (port_max - port_min) + 1
  htons ((flow_hash % 2 ^ 32) * range / 2 ^ 32 + port_min)

/-- The C-side `vxlan_tnl_send`: fail with `-EINVAL` when the packet carries no tunnel
key (before any route or socket interaction); otherwise resolve a route
(the external `find_route` outcome is the parameter `routeRes`, whose
success value is the resolved source address written back through `&saddr`),
compute the DF field from the tunnel key's flags, pick the source port from
the flow hash, and call `vxlan_xmit_skb` with the outer-header arguments
(VNI field `htonl(be64_to_cpu(tun_id) << 8)`); on a negative transmit
result the route is released (`ip_rt_put`).  Returns the error code, the
`vxlan_xmit_skb` arguments when the call was made, and the event trace. -/
def vxlan_tnl_send (port : VxlanPort) (tun_key : Option OvsKeyIpv4Tunnel)
    (routeRes : Except Int (List Nat)) (port_min port_max : Nat)
    (flow_hash : Nat) (xmitRes : Int) :
    Int × Option XmitArgs × List SendEvent :=
  match tun_key with
  | none => (-EINVAL, none, [])
  | some tk =>
    match routeRes with
    | .error e => (e, none, [.findRoute])
    | .ok saddr =>
      let df := if tk.tun_flags &&& TUNNEL_DONT_FRAGMENT ≠ 0 then htons IP_DF else [0, 0]
      let src_port := vxlan_src_port port_min port_max flow_hash
      let dst_port := inet_sport port.vs
      let args : XmitArgs :=
        { saddr := saddr
          daddr := tk.ipv4_dst
          tos := tk.ipv4_tos
          ttl := tk.ipv4_ttl
          df := df
          src_port := src_port
          dst_port := dst_port
          vni := htonl (be64_to_cpu tk.tun_id % 2 ^ 64 * 2 ^ 8 % 2 ^ 64) }
      (xmitRes, some args,
        [.findRoute, .xmit] ++ if xmitRes < 0 then [.routePut] else [])

/-! Section: Spec-side predicates -/

/-- The creation options carry a `dst_port` attribute of exactly `u16`
width (the validation `vxlan_tnl_create` performs before allocating). -/
def dstPortOk (o : Option (List Nlattr)) : Bool :=
  match o with
  | none => false
  | some opts =>
    match nla_find_nested opts OVS_TUNNEL_ATTR_DST_PORT with
    | some a => a.len == 2
    | none => false

/-! Section: Claims -/

/-- Claim C2: for every inbound underlay packet (outer IP header and a
4-byte network-order VNI field), the decapsulator builds a tunnel key whose
tunnel id equals the 32-bit VNI field value shifted right by 8 bits, whose
source/destination address and tos come from the outer IP header, and whose
flags contain the "key present" bit; the key is delivered together with the
endpoint and the inner payload. -/
theorem C2_decap_builds_tunnel_key (vport : VxlanPort) (iph : Iphdr)
    (payload : List Nat) (a b c d : Nat) (ha : a < 256) (hb : b < 256)
    (hc : c < 256) (hd : d < 256) :
    (vxlan_rcv vport iph payload [a, b, c, d]).1 = vport
    ∧ (vxlan_rcv vport iph payload [a, b, c, d]).2.1 = payload
    ∧ be64_to_cpu (vxlan_rcv vport iph payload [a, b, c, d]).2.2.tun_id
        = ntohl [a, b, c, d] / 2 ^ 8
    ∧ (vxlan_rcv vport iph payload [a, b, c, d]).2.2.ipv4_src = iph.saddr
    ∧ (vxlan_rcv vport iph payload [a, b, c, d]).2.2.ipv4_dst = iph.daddr
    ∧ (vxlan_rcv vport iph payload [a, b, c, d]).2.2.ipv4_tos = iph.tos
    ∧ (vxlan_rcv vport iph payload [a, b, c, d]).2.2.tun_flags &&& TUNNEL_KEY ≠ 0 := by
  refine ⟨rfl, rfl, ?_, rfl, rfl, rfl, ?_⟩
  · show be64_to_cpu (cpu_to_be64 (ntohl [a, b, c, d] / 2 ^ 8)) = ntohl [a, b, c, d] / 2 ^ 8
    rw [be64_to_cpu_cpu_to_be64]
    simp only [ntohl]
    omega
  · show TUNNEL_KEY &&& TUNNEL_KEY ≠ 0
    decide

/-- Claim C2 witness: decapsulating a packet whose VNI field encodes VNI
`0x123456` (field bytes `12 34 56 00`) yields tunnel id `0x123456`. -/
theorem C2_decap_builds_tunnel_key_witness :
    be64_to_cpu ((vxlan_rcv ⟨⟨htons 4789⟩, []⟩ ⟨[10, 0, 0, 2], [10, 0, 0, 1], 0, 64⟩ []
        [0x12, 0x34, 0x56, 0x00]).2.2.tun_id) = 0x123456 := by
  have h := C2_decap_builds_tunnel_key ⟨⟨htons 4789⟩, []⟩
    ⟨[10, 0, 0, 2], [10, 0, 0, 1], 0, 64⟩ [] 0x12 0x34 0x56 0x00
    (by decide) (by decide) (by decide) (by decide)
  rw [h.2.2.1]
  decide

/-- Claim C9: the decapsulator never validates the low 8 reserved bits of
the VNI field – two inbound packets whose 4-byte fields agree on the first
three bytes (the high 24 bits) but differ in the last byte produce
identical deliveries; nonzero reserved bits are accepted, not rejected. -/
theorem C9_reserved_bits_ignored (vport : VxlanPort) (iph : Iphdr)
    (payload : List Nat) (a b c d d' : Nat) (hd : d < 256) (hd' : d' < 256) :
    vxlan_rcv vport iph payload [a, b, c, d] = vxlan_rcv vport iph payload [a, b, c, d'] := by
  simp only [vxlan_rcv, ovs_flow_tun_key_init, ntohl]
  have : (((a * 256 + b) * 256 + c) * 256 + d) / 2 ^ 8
      = (((a * 256 + b) * 256 + c) * 256 + d') / 2 ^ 8 := by omega
  rw [this]

/-- Claim C9 witness: a field with reserved byte `0xff` decapsulates exactly
as the one with reserved byte `0x00`. -/
theorem C9_reserved_bits_ignored_witness :
    vxlan_rcv ⟨⟨htons 4789⟩, []⟩ ⟨[10, 0, 0, 2], [10, 0, 0, 1], 0, 64⟩ []
        [0x12, 0x34, 0x56, 0x00]
      = vxlan_rcv ⟨⟨htons 4789⟩, []⟩ ⟨[10, 0, 0, 2], [10, 0, 0, 1], 0, 64⟩ []
        [0x12, 0x34, 0x56, 0xff] :=
  C9_reserved_bits_ignored ⟨⟨htons 4789⟩, []⟩ ⟨[10, 0, 0, 2], [10, 0, 0, 1], 0, 64⟩ []
    0x12 0x34 0x56 0x00 0xff (by decide) (by decide)

/-- Claim C3: send on a packet carrying no tunnel key returns `-EINVAL`
immediately, with no route resolution and no transmission (empty event
trace) and no `vxlan_xmit_skb` call, whatever the external outcomes would
have been; the endpoint is not touched. -/
theorem C3_send_missing_tunnel_key (port : VxlanPort)
    (routeRes : Except Int (List Nat)) (port_min port_max flow_hash : Nat)
    (xmitRes : Int) :
    vxlan_tnl_send port none routeRes port_min port_max flow_hash xmitRes
      = (-EINVAL, none, []) := rfl

/-- Claim C4: whenever the creation options are absent, or carry no
`dst_port` attribute, or carry one whose payload is not exactly 16 bits
wide, creation fails with `-EINVAL` and the event trace is empty: nothing
was allocated and no socket open was attempted, regardless of how the
external allocation and socket calls would have behaved. -/
theorem C4_create_bad_options (parms : VportParms) (allocFail sockFail : Option Int)
    (hbad : dstPortOk parms.options = false) :
    vxlan_tnl_create parms allocFail sockFail = (.error (-EINVAL), []) := by
  cases hopt : parms.options with
  | none => simp [vxlan_tnl_create, hopt]
  | some opts =>
    cases hf : nla_find_nested opts OVS_TUNNEL_ATTR_DST_PORT with
    | none => simp [vxlan_tnl_create, hopt, hf]
    | some a =>
      simp only [dstPortOk, hopt, hf] at hbad
      have hlen : a.len ≠ 2 := by simpa using hbad
      simp [vxlan_tnl_create, hopt, hf, hlen]

/-- Claim C4 witness: creating with an options set lacking `dst_port`
fails with `-EINVAL` and an empty trace. -/
theorem C4_create_bad_options_witness :
    vxlan_tnl_create ⟨['v', 'x', 'l', 'a', 'n', '0'], some []⟩ none none
      = (.error (-EINVAL), []) :=
  C4_create_bad_options ⟨['v', 'x', 'l', 'a', 'n', '0'], some []⟩ none none (by decide)

/-- Claim C5: creation is all-or-nothing – when the options are valid and
the socket open fails with error `e` after the vport object was allocated,
the vport object is freed, the socket error is returned, and the trace
shows every allocation matched by a free (no resources remain). -/
theorem C5_create_sock_fail_atomic (parms : VportParms) (opts : List Nlattr)
    (a : Nlattr) (e : Int) (hopts : parms.options = some opts)
    (hfind : nla_find_nested opts OVS_TUNNEL_ATTR_DST_PORT = some a)
    (hlen : a.len = 2) :
    vxlan_tnl_create parms none (some e)
      = (.error e,
         [.vportAlloc, .sockAdd (htons (nla_get_u16 a)), .vportFree])
    ∧ allocBalanced (vxlan_tnl_create parms none (some e)).2 := by
  have hc : vxlan_tnl_create parms none (some e)
      = (.error e,
         [.vportAlloc, .sockAdd (htons (nla_get_u16 a)), .vportFree]) := by
    simp [vxlan_tnl_create, hopts, hfind, hlen, vxlan_sock_add]
  refine ⟨hc, ?_⟩
  rw [hc]
  rfl

/-- Claim C5 witness: with options `dst_port = 4789` (width 2) and a socket
open failing with `-ENOMEM` (= `-12`), creation returns that error and the
alloc/free-balanced trace. -/
theorem C5_create_sock_fail_atomic_witness :
    vxlan_tnl_create ⟨['v', 'x', 'l', 'a', 'n', '0'],
        some [⟨OVS_TUNNEL_ATTR_DST_PORT, 2, 4789⟩]⟩ none (some (-12))
      = (.error (-12),
         [.vportAlloc,
          .sockAdd (htons (nla_get_u16 ⟨OVS_TUNNEL_ATTR_DST_PORT, 2, 4789⟩)),
          .vportFree])
    ∧ allocBalanced (vxlan_tnl_create ⟨['v', 'x', 'l', 'a', 'n', '0'],
        some [⟨OVS_TUNNEL_ATTR_DST_PORT, 2, 4789⟩]⟩ none (some (-12))).2 :=
  C5_create_sock_fail_atomic _ _ ⟨OVS_TUNNEL_ATTR_DST_PORT, 2, 4789⟩ (-12)
    rfl rfl rfl

/-- Claim C1: encapsulation then decapsulation is the identity on VNIs that
fit in 24 bits – a send whose tunnel key holds `tunnel_id = tid < 2^24`
passes the 4-byte network-order field `htonl(tid << 8)` to transmission,
and decapsulating a packet carrying that field recovers tunnel id `tid`. -/
theorem C1_vni_encap_decap_roundtrip (tid : Nat) (htid : tid < 2 ^ 24)
    (port : VxlanPort) (tk : OvsKeyIpv4Tunnel) (hkey : tk.tun_id = cpu_to_be64 tid)
    (saddr : List Nat) (port_min port_max flow_hash : Nat) (xmitRes : Int)
    (vport : VxlanPort) (iph : Iphdr) (payload : List Nat) :
    ∃ args events,
      vxlan_tnl_send port (some tk) (.ok saddr) port_min port_max flow_hash xmitRes
        = (xmitRes, some args, events)
      ∧ args.vni = htonl (tid * 2 ^ 8)
      ∧ be64_to_cpu (vxlan_rcv vport iph payload args.vni).2.2.tun_id = tid := by
  refine ⟨_, _, rfl, ?_, ?_⟩
  · show htonl (be64_to_cpu tk.tun_id % 2 ^ 64 * 2 ^ 8 % 2 ^ 64) = htonl (tid * 2 ^ 8)
    rw [hkey, be64_to_cpu_cpu_to_be64]
    congr 1
    omega
  · show be64_to_cpu (cpu_to_be64
        (ntohl (htonl (be64_to_cpu tk.tun_id % 2 ^ 64 * 2 ^ 8 % 2 ^ 64)) / 2 ^ 8)) = tid
    rw [hkey, be64_to_cpu_cpu_to_be64, ntohl_htonl, be64_to_cpu_cpu_to_be64]
    omega

/-- Claim C1 witness: `tunnel_id = 5000` is packed as field `0x00138800`
(bytes `00 13 88 00`, value `0x138800`) and decapsulates back to `5000`. -/
theorem C1_vni_encap_decap_roundtrip_witness :
    ∃ args events,
      vxlan_tnl_send ⟨⟨htons 4789⟩, []⟩
          (some ⟨cpu_to_be64 5000, [10, 0, 0, 1], [10, 0, 0, 2], 0, 64, 0⟩)
          (.ok [10, 0, 0, 1]) 32768 61000 7 0
        = (0, some args, events)
      ∧ args.vni = htonl (5000 * 2 ^ 8)
      ∧ be64_to_cpu ((vxlan_rcv ⟨⟨htons 4789⟩, []⟩
            ⟨[10, 0, 0, 1], [10, 0, 0, 2], 0, 64⟩ [] args.vni)).2.2.tun_id = 5000 :=
  C1_vni_encap_decap_roundtrip 5000 (by decide) ⟨⟨htons 4789⟩, []⟩
    ⟨cpu_to_be64 5000, [10, 0, 0, 1], [10, 0, 0, 2], 0, 64, 0⟩ rfl
    [10, 0, 0, 1] 32768 61000 7 0 ⟨⟨htons 4789⟩, []⟩
    ⟨[10, 0, 0, 1], [10, 0, 0, 2], 0, 64⟩ []

/-- Claim C6: on a send with a tunnel key and successful route resolution,
the outer "don't fragment" field equals `htons(IP_DF)` exactly when the
tunnel key's flags contain `TUNNEL_DONT_FRAGMENT`, and is zero otherwise. -/
theorem C6_df_iff_dont_fragment (port : VxlanPort) (tk : OvsKeyIpv4Tunnel)
    (saddr : List Nat) (port_min port_max flow_hash : Nat) (xmitRes : Int) :
    ∃ args events,
      vxlan_tnl_send port (some tk) (.ok saddr) port_min port_max flow_hash xmitRes
        = (xmitRes, some args, events)
      ∧ (args.df = htons IP_DF ↔ tk.tun_flags &&& TUNNEL_DONT_FRAGMENT ≠ 0)
      ∧ (ntohs args.df = 0 ↔ tk.tun_flags &&& TUNNEL_DONT_FRAGMENT = 0) := by
  refine ⟨_, _, rfl, ?_, ?_⟩
  · show (if tk.tun_flags &&& TUNNEL_DONT_FRAGMENT ≠ 0 then htons IP_DF else [0, 0])
        = htons IP_DF ↔ tk.tun_flags &&& TUNNEL_DONT_FRAGMENT ≠ 0
    by_cases h : tk.tun_flags &&& TUNNEL_DONT_FRAGMENT = 0
    · simp [h]
      decide
    · simp [h]
  · show ntohs (if tk.tun_flags &&& TUNNEL_DONT_FRAGMENT ≠ 0 then htons IP_DF else [0, 0])
        = 0 ↔ tk.tun_flags &&& TUNNEL_DONT_FRAGMENT = 0
    by_cases h : tk.tun_flags &&& TUNNEL_DONT_FRAGMENT = 0
    · simp [h]
      decide
    · simp [h]
      decide

/-- The scaled source port always lands inside the configured range. -/
theorem ntohs_vxlan_src_port_range (port_min port_max flow_hash : Nat)
    (hle : port_min ≤ port_max) (hmax : port_max < 2 ^ 16) :
    port_min ≤ ntohs (vxlan_src_port port_min port_max flow_hash)
    ∧ ntohs (vxlan_src_port port_min port_max flow_hash) ≤ port_max := by
  have hofs : flow_hash % 2 ^ 32 * (port_max - port_min + 1) / 2 ^ 32
      < port_max - port_min + 1 := by
    rw [Nat.div_lt_iff_lt_mul (by norm_num : (0 : Nat) < 2 ^ 32)]
    have h2 : flow_hash % 2 ^ 32 * (port_max - port_min + 1)
        ≤ (2 ^ 32 - 1) * (port_max - port_min + 1) :=
      Nat.mul_le_mul_right _ (by omega)
    omega
  simp only [vxlan_src_port]
  rw [ntohs_htons]
  omega

/-- Claim C7: the underlay UDP source port is a deterministic function of
the inner flow's hash and the configured ephemeral range: two sends with
the same flow hash and the same range hand the same source port to
transmission, and that port always lies in `[port_min, port_max]`. -/
theorem C7_src_port_deterministic_in_range (port1 port2 : VxlanPort)
    (tk1 tk2 : OvsKeyIpv4Tunnel) (s1 s2 : List Nat)
    (port_min port_max flow_hash : Nat) (xr1 xr2 : Int)
    (hle : port_min ≤ port_max) (hmax : port_max < 2 ^ 16) :
    ∃ args1 events1 args2 events2,
      vxlan_tnl_send port1 (some tk1) (.ok s1) port_min port_max flow_hash xr1
        = (xr1, some args1, events1)
      ∧ vxlan_tnl_send port2 (some tk2) (.ok s2) port_min port_max flow_hash xr2
        = (xr2, some args2, events2)
      ∧ args1.src_port = args2.src_port
      ∧ port_min ≤ ntohs args1.src_port
      ∧ ntohs args1.src_port ≤ port_max := by
  refine ⟨_, _, _, _, rfl, rfl, rfl, ?_, ?_⟩
  · exact (ntohs_vxlan_src_port_range port_min port_max flow_hash hle hmax).1
  · exact (ntohs_vxlan_src_port_range port_min port_max flow_hash hle hmax).2

/-- Claim C7 witness: with range `[32768, 61000]` and flow hash `123456789`,
two sends (different endpoints and keys) pick the same in-range source
port. -/
theorem C7_src_port_deterministic_in_range_witness :
    ∃ args1 events1 args2 events2,
      vxlan_tnl_send ⟨⟨htons 4789⟩, []⟩
          (some ⟨cpu_to_be64 5000, [10, 0, 0, 1], [10, 0, 0, 2], 0, 64, 0⟩)
          (.ok [10, 0, 0, 1]) 32768 61000 123456789 0
        = (0, some args1, events1)
      ∧ vxlan_tnl_send ⟨⟨htons 8472⟩, []⟩
          (some ⟨cpu_to_be64 77, [10, 0, 0, 3], [10, 0, 0, 4], 7, 32, 0x0100⟩)
          (.ok [10, 0, 0, 3]) 32768 61000 123456789 0
        = (0, some args2, events2)
      ∧ args1.src_port = args2.src_port
      ∧ 32768 ≤ ntohs args1.src_port
      ∧ ntohs args1.src_port ≤ 61000 :=
  C7_src_port_deterministic_in_range ⟨⟨htons 4789⟩, []⟩ ⟨⟨htons 8472⟩, []⟩
    ⟨cpu_to_be64 5000, [10, 0, 0, 1], [10, 0, 0, 2], 0, 64, 0⟩
    ⟨cpu_to_be64 77, [10, 0, 0, 3], [10, 0, 0, 4], 7, 32, 0x0100⟩
    [10, 0, 0, 1] [10, 0, 0, 3] 32768 61000 123456789 0 0
    (by decide) (by decide)

/-- Claim C10: only the low 24 bits of the 64-bit tunnel id reach the wire:
the transmitted 32-bit VNI field value is `(tunnel_id << 8) mod 2^32`, and
two sends whose tunnel ids are congruent mod `2^24` (all else equal)
produce identical transmissions. -/
theorem C10_tun_id_truncated_mod_2_24 (port : VxlanPort) (tk : OvsKeyIpv4Tunnel)
    (saddr : List Nat) (port_min port_max flow_hash : Nat) (xmitRes : Int)
    (tid1 tid2 : Nat) (h1 : tid1 < 2 ^ 64) (h2 : tid2 < 2 ^ 64)
    (hcong : tid1 % 2 ^ 24 = tid2 % 2 ^ 24) :
    vxlan_tnl_send port (some { tk with tun_id := cpu_to_be64 tid1 }) (.ok saddr)
        port_min port_max flow_hash xmitRes
      = vxlan_tnl_send port (some { tk with tun_id := cpu_to_be64 tid2 }) (.ok saddr)
        port_min port_max flow_hash xmitRes
    ∧ ∃ args events,
        vxlan_tnl_send port (some { tk with tun_id := cpu_to_be64 tid1 }) (.ok saddr)
            port_min port_max flow_hash xmitRes
          = (xmitRes, some args, events)
        ∧ ntohl args.vni = tid1 * 2 ^ 8 % 2 ^ 32 := by
  have hv : htonl (be64_to_cpu (cpu_to_be64 tid1) % 2 ^ 64 * 2 ^ 8 % 2 ^ 64)
      = htonl (be64_to_cpu (cpu_to_be64 tid2) % 2 ^ 64 * 2 ^ 8 % 2 ^ 64) := by
    rw [be64_to_cpu_cpu_to_be64, be64_to_cpu_cpu_to_be64]
    simp only [htonl, List.cons.injEq, and_true]
    omega
  constructor
  · simp only [vxlan_tnl_send]
    rw [hv]
  · refine ⟨_, _, rfl, ?_⟩
    show ntohl (htonl (be64_to_cpu (cpu_to_be64 tid1) % 2 ^ 64 * 2 ^ 8 % 2 ^ 64))
        = tid1 * 2 ^ 8 % 2 ^ 32
    rw [ntohl_htonl, be64_to_cpu_cpu_to_be64]
    omega

/-- Claim C10 witness: tunnel ids `2^24 + 5` and `5` produce identical
transmissions, and the field value for `2^24 + 5` is `(2^24 + 5) * 2^8 mod
2^32 = 0x500` – the high bits are gone. -/
theorem C10_tun_id_truncated_mod_2_24_witness :
    vxlan_tnl_send ⟨⟨htons 4789⟩, []⟩
        (some { tun_id := cpu_to_be64 (2 ^ 24 + 5), ipv4_src := [10, 0, 0, 1],
                ipv4_dst := [10, 0, 0, 2], ipv4_tos := 0, ipv4_ttl := 64,
                tun_flags := 0 : OvsKeyIpv4Tunnel })
        (.ok [10, 0, 0, 1]) 32768 61000 7 0
      = vxlan_tnl_send ⟨⟨htons 4789⟩, []⟩
        (some { tun_id := cpu_to_be64 5, ipv4_src := [10, 0, 0, 1],
                ipv4_dst := [10, 0, 0, 2], ipv4_tos := 0, ipv4_ttl := 64,
                tun_flags := 0 : OvsKeyIpv4Tunnel })
        (.ok [10, 0, 0, 1]) 32768 61000 7 0
    ∧ ∃ args events,
        vxlan_tnl_send ⟨⟨htons 4789⟩, []⟩
            (some { tun_id := cpu_to_be64 (2 ^ 24 + 5), ipv4_src := [10, 0, 0, 1],
                    ipv4_dst := [10, 0, 0, 2], ipv4_tos := 0, ipv4_ttl := 64,
                    tun_flags := 0 : OvsKeyIpv4Tunnel })
            (.ok [10, 0, 0, 1]) 32768 61000 7 0
          = (0, some args, events)
        ∧ ntohl args.vni = (2 ^ 24 + 5) * 2 ^ 8 % 2 ^ 32 :=
  C10_tun_id_truncated_mod_2_24 ⟨⟨htons 4789⟩, []⟩
    ⟨cpu_to_be64 0, [10, 0, 0, 1], [10, 0, 0, 2], 0, 64, 0⟩
    [10, 0, 0, 1] 32768 61000 7 0 (2 ^ 24 + 5) 5
    (by norm_num) (by norm_num) (by norm_num)

/-- Claim C8 (amended): for every endpoint successfully created with a
`dst_port` attribute holding the 16-bit value `p` and a name shorter than
`IFNAMSIZ` (16) characters, `get_options` returns `p` (surviving the
`htons`/`ntohs` conversions on the stored socket) and `get_name` returns
the creation name. -/
theorem C8_accessors_return_creation_values (parms : VportParms)
    (opts : List Nlattr) (a : Nlattr) (hopts : parms.options = some opts)
    (hfind : nla_find_nested opts OVS_TUNNEL_ATTR_DST_PORT = some a)
    (hlen : a.len = 2) (hval : a.value < 2 ^ 16)
    (hname : parms.name.length < IFNAMSIZ) :
    ∃ vport,
      vxlan_tnl_create parms none none
        = (.ok vport, [.vportAlloc, .sockAdd (htons a.value)])
      ∧ vxlan_get_options vport = a.value
      ∧ vxlan_get_name vport = parms.name := by
  have hu : nla_get_u16 a = a.value := by
    unfold nla_get_u16
    omega
  refine ⟨⟨⟨htons a.value⟩, parms.name.take IFNAMSIZ⟩, ?_, ?_, ?_⟩
  · simp [vxlan_tnl_create, hopts, hfind, hlen, vxlan_sock_add, hu]
  · show ntohs (htons a.value) = a.value
    rw [ntohs_htons]
    omega
  · show parms.name.take IFNAMSIZ = parms.name
    exact List.take_of_length_le (by omega)

/-- Claim C8 witness: `create` with name `vxlan0` and `dst_port = 4789`
succeeds, `get_options` returns `4789` and `get_name` returns `vxlan0`. -/
theorem C8_accessors_return_creation_values_witness :
    ∃ vport,
      vxlan_tnl_create ⟨['v', 'x', 'l', 'a', 'n', '0'],
          some [⟨OVS_TUNNEL_ATTR_DST_PORT, 2, 4789⟩]⟩ none none
        = (.ok vport, [.vportAlloc, .sockAdd (htons 4789)])
      ∧ vxlan_get_options vport = 4789
      ∧ vxlan_get_name vport = ['v', 'x', 'l', 'a', 'n', '0'] :=
  C8_accessors_return_creation_values
    ⟨['v', 'x', 'l', 'a', 'n', '0'], some [⟨OVS_TUNNEL_ATTR_DST_PORT, 2, 4789⟩]⟩
    [⟨OVS_TUNNEL_ATTR_DST_PORT, 2, 4789⟩] ⟨OVS_TUNNEL_ATTR_DST_PORT, 2, 4789⟩
    rfl rfl rfl (by decide) (by decide)

/-- Claim C8 counterexample: a 17-character name is silently truncated by
`strncpy(..., IFNAMSIZ)` – creation succeeds and `get_options` returns the
port, but `get_name` does not return the name the endpoint was created
with. -/
theorem C8_name_truncated_counterexample :
    ∃ vport,
      (vxlan_tnl_create
          ⟨['v', 'x', 'l', 'a', 'n', '_', 't', 'u', 'n', 'n', 'e', 'l', '_',
            '0', '0', '0', '1'],
           some [⟨OVS_TUNNEL_ATTR_DST_PORT, 2, 4789⟩]⟩ none none).1 = .ok vport
      ∧ vxlan_get_options vport = 4789
      ∧ vxlan_get_name vport
          ≠ ['v', 'x', 'l', 'a', 'n', '_', 't', 'u', 'n', 'n', 'e', 'l', '_',
             '0', '0', '0', '1'] := by
  refine ⟨⟨⟨htons 4789⟩,
    ['v', 'x', 'l', 'a', 'n', '_', 't', 'u', 'n', 'n', 'e', 'l', '_',
     '0', '0', '0']⟩, ?_, ?_, ?_⟩
  · rfl
  · decide
  · decide
